import Mathlib

/-!
Verification development for a clap-based CLI calculator (src/main.rs).

The program has two layers:
  * the function `calc(operation, operand1, operand2)` dispatches on the
    operation string and computes an arithmetic result on two `f64` values,
    returning an error string on division by zero and panicking (the
    `unreachable!()` arm) on any other operation string;
  * `main` builds a clap command with three optional positionals
    (operation, operand1, operand2) and three flags (`-o` or `--operation`,
    `-f` or `--first`, `-s` or `--second`), resolves each logical field as
    positional-or-else-flag, lowercases the operation token, and runs `calc`.

Model of `f64`: NaN, signed infinities, and finite values as exact rationals
together with a sign-of-zero flag (`negZero`, meaningful only when the value
is zero).  Rounding and overflow of real IEEE 754 binary64 arithmetic are not
modelled; the theorems proved below concern the dispatch structure, the exact
zero test `operand2 == 0.0`, sign-of-zero, and commutativity, none of which
depend on the rounding step (IEEE addition and multiplication round an exact,
symmetric real result, so commutativity survives rounding).
-/

namespace ClapDemo

/-- Model of an IEEE 754 binary64 value: NaN (all payloads identified),
signed infinity, or a finite value given as an exact rational together with a
negative-zero flag that is meaningful only when the rational is zero. -/
inductive F64 where
  | nan : F64
  | inf (neg : Bool) : F64
  | fin (val : ℚ) (negZero : Bool) : F64
deriving DecidableEq

/-- Positive zero, the literal `0.0` of the Rust source. -/
def F64.zero : F64 := F64.fin 0 false

/-- Negative zero, `-0.0`. -/
def F64.negZero : F64 := F64.fin 0 true

/-- Sign bit of a value (for NaN the sign is irrelevant to the claims and is
taken positive). -/
def F64.signBit : F64 → Bool
  | .nan => false
  | .inf s => s
  | .fin v nz => if v < 0 then true else if v = 0 then nz else false

/-- Whether the value is finite (neither NaN nor an infinity). -/
def F64.isFinite : F64 → Bool
  | .fin _ _ => true
  | _ => false

/-- IEEE 754 equality (`==` on `f64` in Rust): NaN compares unequal to
everything including itself, `+0.0 == -0.0`, and finite values compare by
numeric value. -/
def F64.ieeeEq : F64 → F64 → Bool
  | .fin a _, .fin b _ => decide (a = b)
  | .inf s, .inf t => s == t
  | _, _ => false

/-- IEEE addition on the model (exact on finite values; see the header note
on rounding).  The sign of a zero result follows IEEE 754:
`(-0.0) + (-0.0) = -0.0`, all other zero sums are `+0.0`. -/
def F64.add : F64 → F64 → F64
  | .nan, _ => .nan
  | _, .nan => .nan
  | .inf s, .inf t => if s = t then .inf s else .nan
  | .inf s, .fin _ _ => .inf s
  | .fin _ _, .inf t => .inf t
  | .fin a na, .fin b nb =>
      if a = 0 ∧ b = 0 then .fin 0 (na && nb) else .fin (a + b) false

/-- IEEE subtraction on the model.  For zero operands the result sign follows
IEEE 754 (`(-0.0) - (+0.0) = -0.0`, all other zero differences of zeros are
`+0.0`); a difference of equal nonzero values is `+0.0`. -/
def F64.sub : F64 → F64 → F64
  | .nan, _ => .nan
  | _, .nan => .nan
  | .inf s, .inf t => if s = t then .nan else .inf s
  | .inf s, .fin _ _ => .inf s
  | .fin _ _, .inf t => .inf (!t)
  | .fin a na, .fin b nb =>
      if a = 0 ∧ b = 0 then .fin 0 (na && !nb) else .fin (a - b) false

/-- IEEE multiplication on the model; a zero result carries the XOR of the
operand signs, `inf * 0` is NaN. -/
def F64.mul : F64 → F64 → F64
  | .nan, _ => .nan
  | _, .nan => .nan
  | .inf s, .inf t => .inf (s != t)
  | .inf s, .fin b nb => if b = 0 then .nan else .inf (s != (F64.fin b nb).signBit)
  | .fin a na, .inf t => if a = 0 then .nan else .inf ((F64.fin a na).signBit != t)
  | .fin a na, .fin b nb =>
      if a = 0 ∨ b = 0 then .fin 0 ((F64.fin a na).signBit != (F64.fin b nb).signBit)
      else .fin (a * b) false

/-- IEEE division on the model; `x / 0` is a signed infinity (NaN for
`0 / 0`), a finite quotient carries the XOR sign on a zero result.  In the
program this is only reached with a divisor b with `b == 0.0` false. -/
def F64.div : F64 → F64 → F64
  | .nan, _ => .nan
  | _, .nan => .nan
  | .inf _, .inf _ => .nan
  | .inf s, .fin b nb => .inf (s != (F64.fin b nb).signBit)
  | .fin a na, .inf t => .fin 0 ((F64.fin a na).signBit != t)
  | .fin a na, .fin b nb =>
      if b = 0 then (if a = 0 then .nan else .inf ((F64.fin a na).signBit != (F64.fin b nb).signBit))
      else if a = 0 then .fin 0 ((F64.fin a na).signBit != (F64.fin b nb).signBit)
      else .fin (a / b) false

/-- Result of the Rust function `calc`: `Ok(value)`, `Err(message)`, or a
panic (the `unreachable!()` arm, which aborts the process). -/
inductive CalcResult where
  | ok (value : F64) : CalcResult
  | err (msg : String) : CalcResult
  | panicked : CalcResult
deriving DecidableEq

/-- Embedding of `calc` (src/main.rs lines 37-51): match on the operation
string with arms `"ADD" | "add" | "+"`, `"SUB" | "sub" | "-"`,
`"MUL" | "mul" | "*"`, `"DIV" | "div" | "/"` (division guarded by the exact
IEEE test `operand2 == 0.0`), and a final `unreachable!()` arm.  Named
`calcFn` because `calc` is a Lean keyword. -/
def calcFn (operation : String) (operand1 operand2 : F64) : CalcResult :=
  if operation = "ADD" ∨ operation = "add" ∨ operation = "+" then
    .ok (operand1.add operand2)
  else if operation = "SUB" ∨ operation = "sub" ∨ operation = "-" then
    .ok (operand1.sub operand2)
  else if operation = "MUL" ∨ operation = "mul" ∨ operation = "*" then
    .ok (operand1.mul operand2)
  else if operation = "DIV" ∨ operation = "div" ∨ operation = "/" then
    if operand2.ieeeEq F64.zero then .err "Error: Division by zero"
    else .ok (operand1.div operand2)
  else .panicked

/-- ASCII lowercasing of a string (Rust `str::to_ascii_lowercase`, also the
comparison key of clap `ignore_case`): each byte in `A`..`Z` is shifted to
its lowercase form, every other character is unchanged. -/
def strToAsciiLower (s : String) : String := String.mk (s.data.map Char.toLower)

/-- Allowed operation tokens of the clap `value_parser` (src/main.rs lines
63 and 88). -/
def acceptedOps : List String := ["Add", "Sub", "Mul", "Div", "+", "-", "*", "/"]

/-- Whether clap accepts an operation token: case-insensitive membership in
`acceptedOps` (the `ignore_case(true)` setting). -/
def opTokenValid (t : String) : Bool :=
  acceptedOps.any (fun p => strToAsciiLower p == strToAsciiLower t)

/-- Canonical logical operator of the spec data model, one of the four
variants every accepted alias maps to. -/
inductive Op where
  | addOp : Op
  | subOp : Op
  | mulOp : Op
  | divOp : Op
deriving DecidableEq

/-- Canonical-operation mapping of the spec: the logical operator an alias
denotes (case-insensitively), or none for a token outside the alias set. -/
def logicalOp (t : String) : Option Op :=
  let l := strToAsciiLower t
  if l = "add" ∨ l = "+" then some .addOp
  else if l = "sub" ∨ l = "-" then some .subOp
  else if l = "mul" ∨ l = "*" then some .mulOp
  else if l = "div" ∨ l = "/" then some .divOp
  else none

/-- Composition the spec calls `evaluate`: the Resolver lowercases the
resolved operation token (src/main.rs line 113) before dispatching to
`calc`. -/
def evaluate (op : String) (a b : F64) : CalcResult :=
  calcFn (strToAsciiLower op) a b

/-- Values clap extracted for the six declared arguments, after successful
validation: three optional positionals and three optional flags.  Operation
tokens are kept as the text the user typed (clap returns the input string);
operands are already parsed to `f64`. -/
structure Matches where
  operation : Option String
  operand1 : Option F64
  operand2 : Option F64
  operation_flag : Option String
  operand1_flag : Option F64
  operand2_flag : Option F64
deriving DecidableEq

/-- Rust `Option::or_else` as used in main: the first (positional) value if
present, otherwise the fallback (flag) value. -/
def pick {α : Type} : Option α → Option α → Option α
  | some v, _ => some v
  | none, fb => fb

/-- Resolved operation token (src/main.rs line 112): positional
`operation`, or else the `operation_flag` value. -/
def resolvedOperation (m : Matches) : Option String :=
  pick m.operation m.operation_flag

/-- Resolved first operand (src/main.rs lines 120-124). -/
def resolvedOperand1 (m : Matches) : Option F64 :=
  pick m.operand1 m.operand1_flag

/-- Resolved second operand (src/main.rs lines 126-130). -/
def resolvedOperand2 (m : Matches) : Option F64 :=
  pick m.operand2 m.operand2_flag

/-- Observable outcome of one program run.  `output v` is the line
`Result: v` on standard output with exit status 0; `errorMsg s` is the line
`s` on standard error, no standard output, exit status 0 (main returns
normally on both paths); `usageError` is the clap usage message on standard
error with a nonzero exit status, emitted before main sees any value;
`panicked` is a process abort (nonzero exit status) with no result line. -/
inductive ProgResult where
  | output (value : F64) : ProgResult
  | errorMsg (msg : String) : ProgResult
  | usageError : ProgResult
  | panicked : ProgResult
deriving DecidableEq

/-- Embedding of the body of main after clap parsing (src/main.rs lines
110-136): resolve the operation (early error return when absent), lowercase
it, unwrap each operand (panic when absent), call `calc`, print the result
or the error.  The boolean records whether `calc` was invoked. -/
def runMain (m : Matches) : ProgResult × Bool :=
  match resolvedOperation m with
  | none => (ProgResult.errorMsg "Error: Operation argument missing", false)
  | some opv =>
    match resolvedOperand1 m with
    | none => (ProgResult.panicked, false)
    | some a =>
      match resolvedOperand2 m with
      | none => (ProgResult.panicked, false)
      | some b =>
        match calcFn (strToAsciiLower opv) a b with
        | CalcResult.ok r => (ProgResult.output r, true)
        | CalcResult.err e => (ProgResult.errorMsg e, true)
        | CalcResult.panicked => (ProgResult.panicked, true)

/-- Accumulate a decimal digit list into a natural number. -/
def natOfDigits (ds : List Char) : Nat :=
  ds.foldl (fun n c => 10 * n + (c.toNat - 48)) 0

/-- Modelled from the spec: the optional exponent suffix of the float
grammar used by clap `value_parser!(f64)` (Rust `f64::from_str`), applied to
an already-parsed mantissa.  Accepts the empty rest, or `e` followed by an
optional sign and a nonempty digit run that must consume the rest of the
input; the input is already lowercased. -/
def parseExpPart (mant : ℚ) : List Char → Option ℚ
  | [] => some mant
  | 'e' :: rest =>
    let signed : Bool × List Char :=
      match rest with
      | '+' :: r => (false, r)
      | '-' :: r => (true, r)
      | r => (false, r)
    let ds := signed.2.takeWhile Char.isDigit
    let rest3 := signed.2.dropWhile Char.isDigit
    if ds.isEmpty ∨ ¬ rest3.isEmpty then none
    else
      let e : ℤ := if signed.1 then -(natOfDigits ds : ℤ) else (natOfDigits ds : ℤ)
      some (mant * (10 : ℚ) ^ e)
  | _ => none

/-- Modelled from the spec: the unsigned number part of the Rust float
grammar, `Count [. Count] [Exp]` or `. Count [Exp]`, with at least one digit
overall; returns the exact rational value (the rounding of the true
`f64::from_str` to the nearest representable double is not modelled). -/
def parseNumber (cs : List Char) : Option ℚ :=
  let intDs := cs.takeWhile Char.isDigit
  let rest := cs.dropWhile Char.isDigit
  match rest with
  | '.' :: rest2 =>
    let fracDs := rest2.takeWhile Char.isDigit
    let rest3 := rest2.dropWhile Char.isDigit
    if intDs.isEmpty ∧ fracDs.isEmpty then none
    else
      parseExpPart ((natOfDigits intDs : ℚ) + (natOfDigits fracDs : ℚ) / (10 : ℚ) ^ fracDs.length) rest3
  | _ => if intDs.isEmpty then none else parseExpPart (natOfDigits intDs : ℚ) rest

/-- Modelled from the spec: operand parsing of clap `value_parser!(f64)`
(Rust `f64::from_str`): optional sign, then `inf`, `infinity`, `nan`
(case-insensitive) or a decimal number; anything else is rejected.  A parsed
zero keeps the sign (`-0` is negative zero). -/
def parseF64 (s : String) : Option F64 :=
  let cs := (strToAsciiLower s).data
  let signed : Bool × List Char :=
    match cs with
    | '+' :: r => (false, r)
    | '-' :: r => (true, r)
    | r => (false, r)
  let neg := signed.1
  if signed.2 = ['i', 'n', 'f'] ∨ signed.2 = ['i', 'n', 'f', 'i', 'n', 'i', 't', 'y'] then
    some (F64.inf neg)
  else if signed.2 = ['n', 'a', 'n'] then some F64.nan
  else
    match parseNumber signed.2 with
    | none => none
    | some q =>
      let v : ℚ := if neg then -q else q
      some (if v = 0 then F64.fin 0 neg else F64.fin v false)

/-- Raw textual values assigned to the six declared arguments before
validation: which text went to which argument. -/
structure RawArgs where
  operation : Option String
  operand1 : Option String
  operand2 : Option String
  operation_flag : Option String
  operand1_flag : Option String
  operand2_flag : Option String

/-- Modelled from the spec: clap validation of an operation token (allowed
value list with `ignore_case(true)`); an absent argument is fine, a present
token outside the set is a usage error. -/
def validateOpTok : Option String → Option (Option String)
  | none => some none
  | some t => if opTokenValid t then some (some t) else none

/-- Modelled from the spec: clap validation of an operand
(`value_parser!(f64)`); an absent argument is fine, present text that does
not parse as a float is a usage error. -/
def validateOperand : Option String → Option (Option F64)
  | none => some none
  | some t =>
    match parseF64 t with
    | none => none
    | some v => some (some v)

/-- Modelled from the spec: the strict clap parse of src/main.rs lines
56-108.  Every supplied value must validate; any failure aborts the run with
a usage error (`none`) before the body of main executes. -/
def parseArgs (r : RawArgs) : Option Matches :=
  match validateOpTok r.operation, validateOperand r.operand1, validateOperand r.operand2,
      validateOpTok r.operation_flag, validateOperand r.operand1_flag,
      validateOperand r.operand2_flag with
  | some o, some a, some b, some og, some ag, some bg => some ⟨o, a, b, og, ag, bg⟩
  | _, _, _, _, _, _ => none

/-- Whole-program model: clap parse (usage error on failure, with `calc`
never invoked), then the body of main. -/
def runProgram (r : RawArgs) : ProgResult × Bool :=
  match parseArgs r with
  | none => (ProgResult.usageError, false)
  | some m => runMain m

/-- Helper: addition on the model is commutative (IEEE addition rounds the
exact, symmetric sum, so this also holds of real binary64 addition). -/
theorem F64.add_comm (x y : F64) : F64.add x y = F64.add y x := by
  cases x with
  | nan => cases y <;> rfl
  | inf s =>
    cases y with
    | nan => rfl
    | inf t => cases s <;> cases t <;> rfl
    | fin b nb => rfl
  | fin a na =>
    cases y with
    | nan => rfl
    | inf t => rfl
    | fin b nb =>
      simp only [F64.add]
      by_cases h : a = 0 ∧ b = 0
      · rw [if_pos h, if_pos ⟨h.2, h.1⟩, Bool.and_comm]
      · rw [if_neg h, if_neg (fun hh => h ⟨hh.2, hh.1⟩), Rat.add_comm]

/-- Helper: XOR written with bne is commutative. -/
theorem bne_comm_bool (x y : Bool) : (x != y) = (y != x) := by
  cases x <;> cases y <;> rfl

/-- Helper: multiplication on the model is commutative. -/
theorem F64.mul_comm (x y : F64) : F64.mul x y = F64.mul y x := by
  cases x with
  | nan => cases y <;> rfl
  | inf s =>
    cases y with
    | nan => rfl
    | inf t => simp only [F64.mul, bne_comm_bool]
    | fin b nb => simp only [F64.mul, bne_comm_bool]
  | fin a na =>
    cases y with
    | nan => rfl
    | inf t => simp only [F64.mul, bne_comm_bool]
    | fin b nb =>
      simp only [F64.mul]
      by_cases h : a = 0 ∨ b = 0
      · rw [if_pos h, if_pos (Or.symm h), bne_comm_bool]
      · rw [if_neg h, if_neg (fun hh => h (Or.symm hh)), Rat.mul_comm]

/-- Helper: a token is accepted by clap exactly when its ASCII lowercasing
is one of the eight lowercase alias strings. -/
theorem opTokenValid_iff_lower_mem (t : String) :
    opTokenValid t = true ↔
      strToAsciiLower t ∈ ["add", "sub", "mul", "div", "+", "-", "*", "/"] := by
  have e1 : strToAsciiLower "Add" = "add" := rfl
  have e2 : strToAsciiLower "Sub" = "sub" := rfl
  have e3 : strToAsciiLower "Mul" = "mul" := rfl
  have e4 : strToAsciiLower "Div" = "div" := rfl
  have e5 : strToAsciiLower "+" = "+" := rfl
  have e6 : strToAsciiLower "-" = "-" := rfl
  have e7 : strToAsciiLower "*" = "*" := rfl
  have e8 : strToAsciiLower "/" = "/" := rfl
  simp only [opTokenValid, acceptedOps, List.any_cons, List.any_nil,
    Bool.or_eq_true, beq_iff_eq, e1, e2, e3, e4, e5, e6, e7, e8,
    List.mem_cons, List.not_mem_nil, or_false, Bool.false_eq_true]
  constructor
  · rintro (h | h | h | h | h | h | h | h) <;> simp [h.symm]
  · rintro (h | h | h | h | h | h | h | h) <;> simp [h]

/-- C1: evaluate with operation div fails with the division-by-zero error
exactly when the second operand compares IEEE-equal to 0.0 (so negative
zero triggers the error and no nonzero value, however small, does);
otherwise it returns Ok of the quotient. -/
theorem C1_div_errors_iff_ieee_zero (a b : F64) :
    (calcFn "div" a b = CalcResult.err "Error: Division by zero" ↔
      F64.ieeeEq b F64.zero = true)
    ∧ (F64.ieeeEq b F64.zero = false →
        calcFn "div" a b = CalcResult.ok (F64.div a b))
    ∧ F64.ieeeEq F64.negZero F64.zero = true
    ∧ (∀ q : ℚ, q ≠ 0 → ∀ nz : Bool, F64.ieeeEq (F64.fin q nz) F64.zero = false) := by
  refine ⟨?_, ?_, by decide, ?_⟩
  · cases h : F64.ieeeEq b F64.zero <;> simp [calcFn, h]
  · intro h
    simp [calcFn, h]
  · intro q hq nz
    simp [F64.ieeeEq, F64.zero, hq]

/-- Witness for C1 at concrete inputs: dividing 10.0 by 2.0 succeeds with
the quotient, and 1.0 is not IEEE-equal to zero. -/
theorem C1_div_errors_iff_ieee_zero_witness :
    calcFn "div" (F64.fin 10 false) (F64.fin 2 false) =
      CalcResult.ok (F64.div (F64.fin 10 false) (F64.fin 2 false))
    ∧ F64.ieeeEq (F64.fin 1 false) F64.zero = false :=
  ⟨(C1_div_errors_iff_ieee_zero (F64.fin 10 false) (F64.fin 2 false)).2.1 (by decide),
   (C1_div_errors_iff_ieee_zero (F64.fin 10 false) (F64.fin 2 false)).2.2.2 1 (by decide) false⟩

/-- C2: the evaluator follows the dispatch table on the lowercased operation
string: add and the plus sign give the sum, sub and the minus sign the
difference, mul and the star the product, div and the slash the quotient
when the second operand is not IEEE-zero. -/
theorem C2_dispatch_table (a b : F64) :
    calcFn "add" a b = CalcResult.ok (F64.add a b)
    ∧ calcFn "+" a b = CalcResult.ok (F64.add a b)
    ∧ calcFn "sub" a b = CalcResult.ok (F64.sub a b)
    ∧ calcFn "-" a b = CalcResult.ok (F64.sub a b)
    ∧ calcFn "mul" a b = CalcResult.ok (F64.mul a b)
    ∧ calcFn "*" a b = CalcResult.ok (F64.mul a b)
    ∧ (F64.ieeeEq b F64.zero = false →
        calcFn "div" a b = CalcResult.ok (F64.div a b)
        ∧ calcFn "/" a b = CalcResult.ok (F64.div a b)) := by
  refine ⟨by simp [calcFn], by simp [calcFn], by simp [calcFn], by simp [calcFn],
    by simp [calcFn], by simp [calcFn], ?_⟩
  intro h
  exact ⟨by simp [calcFn, h], by simp [calcFn, h]⟩

/-- Witness for C2 at concrete inputs: division of 10.0 by 2.0 through both
div spellings returns Ok of the quotient. -/
theorem C2_dispatch_table_witness :
    calcFn "div" (F64.fin 10 false) (F64.fin 2 false) =
      CalcResult.ok (F64.div (F64.fin 10 false) (F64.fin 2 false))
    ∧ calcFn "/" (F64.fin 10 false) (F64.fin 2 false) =
      CalcResult.ok (F64.div (F64.fin 10 false) (F64.fin 2 false)) :=
  (C2_dispatch_table (F64.fin 10 false) (F64.fin 2 false)).2.2.2.2.2.2 (by decide)

/-- C8: for finite operands, evaluation of add and of mul is commutative
(the model computes the exact sum and product; real IEEE binary64 rounds
these exact, symmetric results, so commutativity is preserved). -/
theorem C8_add_mul_commutative (a b : F64)
    (ha : a.isFinite = true) (hb : b.isFinite = true) :
    calcFn "add" a b = calcFn "add" b a
    ∧ calcFn "mul" a b = calcFn "mul" b a := by
  refine ⟨?_, ?_⟩
  · simp [calcFn, F64.add_comm a b]
  · simp [calcFn, F64.mul_comm a b]

/-- Result of dispatching a canonical operator, used to compare what the
evaluator does on different aliases of the same operator. -/
def canonResult (o : Op) (a b : F64) : CalcResult :=
  match o with
  | Op.addOp => CalcResult.ok (F64.add a b)
  | Op.subOp => CalcResult.ok (F64.sub a b)
  | Op.mulOp => CalcResult.ok (F64.mul a b)
  | Op.divOp =>
    if F64.ieeeEq b F64.zero = true then CalcResult.err "Error: Division by zero"
    else CalcResult.ok (F64.div a b)

/-- Helper: the value of the evaluator pipeline on any alias of a given
logical operator is determined by the canonical operator alone. -/
theorem evaluate_of_logicalOp (t : String) (o : Op) (h : logicalOp t = some o)
    (a b : F64) :
    evaluate t a b = canonResult o a b := by
  simp only [logicalOp] at h
  by_cases hc1 : strToAsciiLower t = "add" ∨ strToAsciiLower t = "+"
  · rw [if_pos hc1] at h
    obtain rfl : Op.addOp = o := Option.some.inj h
    rcases hc1 with hl | hl <;> simp [evaluate, canonResult, hl, calcFn]
  · rw [if_neg hc1] at h
    by_cases hc2 : strToAsciiLower t = "sub" ∨ strToAsciiLower t = "-"
    · rw [if_pos hc2] at h
      obtain rfl : Op.subOp = o := Option.some.inj h
      rcases hc2 with hl | hl <;> simp [evaluate, canonResult, hl, calcFn]
    · rw [if_neg hc2] at h
      by_cases hc3 : strToAsciiLower t = "mul" ∨ strToAsciiLower t = "*"
      · rw [if_pos hc3] at h
        obtain rfl : Op.mulOp = o := Option.some.inj h
        rcases hc3 with hl | hl <;> simp [evaluate, canonResult, hl, calcFn]
      · rw [if_neg hc3] at h
        by_cases hc4 : strToAsciiLower t = "div" ∨ strToAsciiLower t = "/"
        · rw [if_pos hc4] at h
          obtain rfl : Op.divOp = o := Option.some.inj h
          rcases hc4 with hl | hl <;> simp [evaluate, canonResult, hl, calcFn]
        · rw [if_neg hc4] at h
          exact absurd h (by simp)

/-- C3: any two valid aliases of the same logical operator, in any letter
case, produce identical results from the evaluator pipeline (which
lowercases the token before dispatch) on identical operands. -/
theorem C3_alias_equivalence (t1 t2 : String) (o : Op)
    (h1 : logicalOp t1 = some o) (h2 : logicalOp t2 = some o) (a b : F64) :
    evaluate t1 a b = evaluate t2 a b := by
  rw [evaluate_of_logicalOp t1 o h1 a b, evaluate_of_logicalOp t2 o h2 a b]

/-- Witness for C3: the aliases Add, ADD, add and the plus sign all agree at
the operands 10.0 and 2.0. -/
theorem C3_alias_equivalence_witness :
    evaluate "Add" (F64.fin 10 false) (F64.fin 2 false) =
      evaluate "+" (F64.fin 10 false) (F64.fin 2 false)
    ∧ evaluate "ADD" (F64.fin 10 false) (F64.fin 2 false) =
      evaluate "add" (F64.fin 10 false) (F64.fin 2 false) :=
  ⟨C3_alias_equivalence "Add" "+" Op.addOp (by decide) (by decide)
      (F64.fin 10 false) (F64.fin 2 false),
   C3_alias_equivalence "ADD" "add" Op.addOp (by decide) (by decide)
      (F64.fin 10 false) (F64.fin 2 false)⟩

/-- Exactly the operation strings matched by an arm of calc (src/main.rs
lines 39-47); every other string reaches the unreachable arm. -/
def calcMatchedOps : List String :=
  ["ADD", "add", "+", "SUB", "sub", "-", "MUL", "mul", "*", "DIV", "div", "/"]

/-- C9: calc panics on every operation string outside its matched arms, and
never panics on the lowercasing of a token the clap parser accepts, so the
panic arm is unreachable in a complete run. -/
theorem C9_unreachable_arm (op : String) (a b : F64) :
    (op ∉ calcMatchedOps → calcFn op a b = CalcResult.panicked)
    ∧ (opTokenValid op = true → calcFn (strToAsciiLower op) a b ≠ CalcResult.panicked) := by
  constructor
  · intro h
    simp only [calcMatchedOps, List.mem_cons, List.not_mem_nil, or_false, not_or] at h
    obtain ⟨h1, h2, h3, h4, h5, h6, h7, h8, h9, h10, h11, h12⟩ := h
    simp [calcFn, h1, h2, h3, h4, h5, h6, h7, h8, h9, h10, h11, h12]
  · intro h
    have hm := (opTokenValid_iff_lower_mem op).1 h
    simp only [List.mem_cons, List.not_mem_nil, or_false] at hm
    rcases hm with hl | hl | hl | hl | hl | hl | hl | hl <;> rw [hl] <;>
      cases hb : F64.ieeeEq b F64.zero <;> simp [calcFn, hb]

/-- Witness for C9: the string xyz, which the clap parser would never pass,
panics; the accepted token DIV, once lowercased by the Resolver, does not. -/
theorem C9_unreachable_arm_witness :
    calcFn "xyz" (F64.fin 10 false) (F64.fin 2 false) = CalcResult.panicked
    ∧ calcFn (strToAsciiLower "DIV") (F64.fin 10 false) (F64.fin 2 false) ≠
        CalcResult.panicked :=
  ⟨(C9_unreachable_arm "xyz" (F64.fin 10 false) (F64.fin 2 false)).1 (by decide),
   (C9_unreachable_arm "DIV" (F64.fin 10 false) (F64.fin 2 false)).2 (by decide)⟩

/-- C10: calc accepts the all-uppercase spellings directly, agreeing with
the lowercase and symbol aliases; mixed-case spellings such as Add reach the
panic arm; and the Resolver only ever passes one of the eight lowercase or
symbol strings, never an uppercase spelling. -/
theorem C10_uppercase_aliases (a b : F64) :
    calcFn "ADD" a b = calcFn "add" a b
    ∧ calcFn "ADD" a b = calcFn "+" a b
    ∧ calcFn "SUB" a b = calcFn "sub" a b
    ∧ calcFn "SUB" a b = calcFn "-" a b
    ∧ calcFn "MUL" a b = calcFn "mul" a b
    ∧ calcFn "MUL" a b = calcFn "*" a b
    ∧ calcFn "DIV" a b = calcFn "div" a b
    ∧ calcFn "DIV" a b = calcFn "/" a b
    ∧ calcFn "Add" a b = CalcResult.panicked
    ∧ calcFn "Sub" a b = CalcResult.panicked
    ∧ calcFn "Mul" a b = CalcResult.panicked
    ∧ calcFn "Div" a b = CalcResult.panicked
    ∧ (∀ t, opTokenValid t = true →
        strToAsciiLower t ∈ ["add", "sub", "mul", "div", "+", "-", "*", "/"]) := by
  refine ⟨by simp [calcFn], by simp [calcFn], by simp [calcFn], by simp [calcFn],
    by simp [calcFn], by simp [calcFn], by simp [calcFn], by simp [calcFn],
    by simp [calcFn], by simp [calcFn], by simp [calcFn], by simp [calcFn], ?_⟩
  intro t ht
  exact (opTokenValid_iff_lower_mem t).1 ht

/-- Witness for C10: the uppercase alias and the lowercase alias agree at
10.0 and 2.0, and lowering the accepted token ADD lands in the lowercase
alias set. -/
theorem C10_uppercase_aliases_witness :
    calcFn "ADD" (F64.fin 10 false) (F64.fin 2 false) =
      calcFn "add" (F64.fin 10 false) (F64.fin 2 false)
    ∧ strToAsciiLower "ADD" ∈ ["add", "sub", "mul", "div", "+", "-", "*", "/"] :=
  ⟨(C10_uppercase_aliases (F64.fin 10 false) (F64.fin 2 false)).1,
   (C10_uppercase_aliases (F64.fin 10 false) (F64.fin 2 false)).2.2.2.2.2.2.2.2.2.2.2.2
      "ADD" (by decide)⟩

/-- C4: for each of the three logical fields independently, the resolved
value is the positional one whenever a positional value is present, and the
flag value only when it is absent; and the body of main computes from the
three resolved values alone, so the flag value of a field with a positional
value never influences the run. -/
theorem C4_positional_precedence (m : Matches) :
    (∀ p, m.operation = some p → resolvedOperation m = some p)
    ∧ (m.operation = none → resolvedOperation m = m.operation_flag)
    ∧ (∀ v, m.operand1 = some v → resolvedOperand1 m = some v)
    ∧ (m.operand1 = none → resolvedOperand1 m = m.operand1_flag)
    ∧ (∀ v, m.operand2 = some v → resolvedOperand2 m = some v)
    ∧ (m.operand2 = none → resolvedOperand2 m = m.operand2_flag)
    ∧ (∀ m2 : Matches, resolvedOperation m = resolvedOperation m2 →
        resolvedOperand1 m = resolvedOperand1 m2 →
        resolvedOperand2 m = resolvedOperand2 m2 → runMain m = runMain m2) := by
  refine ⟨?_, ?_, ?_, ?_, ?_, ?_, ?_⟩
  · intro p h
    simp [resolvedOperation, pick, h]
  · intro h
    simp [resolvedOperation, pick, h]
  · intro v h
    simp [resolvedOperand1, pick, h]
  · intro h
    simp [resolvedOperand1, pick, h]
  · intro v h
    simp [resolvedOperand2, pick, h]
  · intro h
    simp [resolvedOperand2, pick, h]
  · intro m2 h1 h2 h3
    unfold runMain
    rw [h1, h2, h3]

/-- Witness for C4: with both a positional and a flag value supplied for
every field, each resolved value is the positional one. -/
theorem C4_positional_precedence_witness :
    resolvedOperation
        ⟨some "Add", some (F64.fin 10 false), some (F64.fin 2 false),
          some "Sub", some (F64.fin 1 false), some (F64.fin 3 false)⟩ = some "Add"
    ∧ resolvedOperand1
        ⟨some "Add", some (F64.fin 10 false), some (F64.fin 2 false),
          some "Sub", some (F64.fin 1 false), some (F64.fin 3 false)⟩ =
        some (F64.fin 10 false)
    ∧ resolvedOperand2
        ⟨some "Add", some (F64.fin 10 false), some (F64.fin 2 false),
          some "Sub", some (F64.fin 1 false), some (F64.fin 3 false)⟩ =
        some (F64.fin 2 false) :=
  ⟨(C4_positional_precedence _).1 "Add" rfl,
   (C4_positional_precedence _).2.2.1 (F64.fin 10 false) rfl,
   (C4_positional_precedence _).2.2.2.2.1 (F64.fin 2 false) rfl⟩

/-- C5: when the operation is present in neither positional nor flag form,
main prints exactly the missing-operation message to standard error and
returns normally (exit status zero) without invoking calc and without
printing a result line. -/
theorem C5_missing_operation (m : Matches)
    (h1 : m.operation = none) (h2 : m.operation_flag = none) :
    runMain m = (ProgResult.errorMsg "Error: Operation argument missing", false) := by
  have hres : resolvedOperation m = none := by
    simp [resolvedOperation, pick, h1, h2]
  simp [runMain, hres]

/-- Witness for C5: the empty invocation. -/
theorem C5_missing_operation_witness :
    runMain ⟨none, none, none, none, none, none⟩ =
      (ProgResult.errorMsg "Error: Operation argument missing", false) :=
  C5_missing_operation ⟨none, none, none, none, none, none⟩ rfl rfl

/-- C6: when the operation resolves but one of the operands is present in
neither form, main panics on the unwrap of the missing value before
producing any result; no graceful missing-operand message exists. -/
theorem C6_missing_operand_panics (m : Matches)
    (hop : (resolvedOperation m).isSome = true)
    (h : resolvedOperand1 m = none ∨ resolvedOperand2 m = none) :
    runMain m = (ProgResult.panicked, false) := by
  obtain ⟨opv, hv⟩ := Option.isSome_iff_exists.1 hop
  rcases h with h | h
  · simp [runMain, hv, h]
  · cases ha : resolvedOperand1 m with
    | none => simp [runMain, hv, ha]
    | some a => simp [runMain, hv, ha, h]

/-- Witness for C6: a run given only the operation add panics. -/
theorem C6_missing_operand_panics_witness :
    runMain ⟨some "add", none, none, none, none, none⟩ =
      (ProgResult.panicked, false) :=
  C6_missing_operand_panics ⟨some "add", none, none, none, none, none⟩
    (by decide) (Or.inl rfl)

/-- Helper: the clap parse fails as soon as any one of the six argument
validations fails. -/
theorem parseArgs_eq_none (r : RawArgs)
    (h : validateOpTok r.operation = none ∨ validateOperand r.operand1 = none
      ∨ validateOperand r.operand2 = none ∨ validateOpTok r.operation_flag = none
      ∨ validateOperand r.operand1_flag = none
      ∨ validateOperand r.operand2_flag = none) :
    parseArgs r = none := by
  unfold parseArgs
  rcases hv1 : validateOpTok r.operation with _ | o <;>
    rcases hv2 : validateOperand r.operand1 with _ | a <;>
    rcases hv3 : validateOperand r.operand2 with _ | b <;>
    rcases hv4 : validateOpTok r.operation_flag with _ | og <;>
    rcases hv5 : validateOperand r.operand1_flag with _ | ag <;>
    rcases hv6 : validateOperand r.operand2_flag with _ | bg <;>
    simp_all

/-- C7: an operation token outside the accepted alias set, or operand text
that does not parse as a float, in any of the argument positions, makes the
argument-parsing layer reject the invocation with a usage error (nonzero
exit) before the evaluator is ever reached, whatever the other arguments
hold. -/
theorem C7_usage_rejection (r : RawArgs)
    (h : (∃ t, (r.operation = some t ∨ r.operation_flag = some t)
            ∧ opTokenValid t = false)
       ∨ (∃ t, (r.operand1 = some t ∨ r.operand2 = some t
            ∨ r.operand1_flag = some t ∨ r.operand2_flag = some t)
            ∧ parseF64 t = none)) :
    runProgram r = (ProgResult.usageError, false) := by
  have hnone : parseArgs r = none := by
    apply parseArgs_eq_none
    rcases h with ⟨t, ht, hv⟩ | ⟨t, ht, hv⟩
    · rcases ht with ht | ht
      · exact Or.inl (by rw [ht]; simp [validateOpTok, hv])
      · exact Or.inr (Or.inr (Or.inr (Or.inl (by rw [ht]; simp [validateOpTok, hv]))))
    · rcases ht with ht | ht | ht | ht
      · exact Or.inr (Or.inl (by rw [ht]; simp [validateOperand, hv]))
      · exact Or.inr (Or.inr (Or.inl (by rw [ht]; simp [validateOperand, hv])))
      · exact Or.inr (Or.inr (Or.inr (Or.inr (Or.inl (by rw [ht]; simp [validateOperand, hv])))))
      · exact Or.inr (Or.inr (Or.inr (Or.inr (Or.inr (by rw [ht]; simp [validateOperand, hv])))))
  simp [runProgram, hnone]

/-- Witness for C7: the invalid token pow alone is rejected with a usage
error, and so is a valid operation next to the unparseable operand abc. -/
theorem C7_usage_rejection_witness :
    runProgram ⟨some "pow", none, none, none, none, none⟩ =
      (ProgResult.usageError, false)
    ∧ runProgram ⟨some "Add", some "abc", none, none, none, none⟩ =
      (ProgResult.usageError, false) :=
  ⟨C7_usage_rejection ⟨some "pow", none, none, none, none, none⟩
      (Or.inl ⟨"pow", Or.inl rfl, by decide⟩),
   C7_usage_rejection ⟨some "Add", some "abc", none, none, none, none⟩
      (Or.inr ⟨"abc", Or.inl rfl, by decide⟩)⟩

/-- Witness for C8 at concrete finite inputs 10.0 and 2.0. -/
theorem C8_add_mul_commutative_witness :
    calcFn "add" (F64.fin 10 false) (F64.fin 2 false) =
      calcFn "add" (F64.fin 2 false) (F64.fin 10 false)
    ∧ calcFn "mul" (F64.fin 10 false) (F64.fin 2 false) =
      calcFn "mul" (F64.fin 2 false) (F64.fin 10 false) :=
  C8_add_mul_commutative (F64.fin 10 false) (F64.fin 2 false) (by decide) (by decide)

end ClapDemo
